import Mathlib

/-!
Shallow embedding of the sandbox lifecycle manager of `backend/src/server.js`
(the k8s-simulator backend).  The server keeps two pieces of in-memory state,
`sandboxes : Map<id, createdAt>` and `creationLocks : Map<ip, bool>`, and
drives two external cluster tools: `kind` (used by `createCluster`,
`deleteCluster` and `executeKubectlCommand`, which targets context
`kind-<id>`) and `k3d` (used by `validateSandbox` and the reuse check of
`POST /sandbox`).  The two tools have separate backing stores, so the state
carries a list of cluster names for each.  External invocations (`execa`)
may succeed or fail; each modelled operation takes the outcome of its
external calls as explicit boolean parameters and records the driver calls
it issued in a log, so that theorems can count creation / deletion / exec
calls.  An older revision of the file (k3d-based throughout, with a
readiness wait) is modelled where its behaviour differs (`createClusterV0`).
-/

namespace K8s

/-- `SANDBOX_LIFETIME_MS = 60 * 60 * 1000` (server.js line 16). -/
def SANDBOX_LIFETIME_MS : Nat := 60 * 60 * 1000

/-- The `sandboxes` Map: association list from sandbox id to `createdAt`
timestamp (ms), in insertion order, keys unique. -/
abbrev Registry := List (String × Nat)

/-- JS `Map.set(k, v)`: overwrite in place if present, else append. -/
def mapSet (m : Registry) (k : String) (v : Nat) : Registry :=
  if k ∈ m.map Prod.fst then
    m.map (fun p => if p.1 = k then (k, v) else p)
  else m ++ [(k, v)]

/-- JS `Map.delete(k)`: remove the entry for `k`, no-op if absent. -/
def mapDelete (m : Registry) (k : String) : Registry :=
  m.filter (fun p => decide (p.1 ≠ k))

/-- One invocation of an external cluster tool, as issued by `execa`. -/
inductive DriverCall where
  /-- `<driver> cluster list [name]` -/
  | listCall (driver : String) (nameArg : Option String)
  /-- `<driver> create/… cluster <name>` -/
  | createCall (driver : String) (clusterName : String)
  /-- `<driver> delete cluster <name>` -/
  | deleteCall (driver : String) (clusterName : String)
  /-- `kubectl --context <ctx> <args>` -/
  | execCall (contextName : String) (args : List String)
  deriving DecidableEq, Repr

def isCreateCall : DriverCall → Bool
  | DriverCall.createCall _ _ => true
  | _ => false

def isDeleteCall : DriverCall → Bool
  | DriverCall.deleteCall _ _ => true
  | _ => false

def isExecCall : DriverCall → Bool
  | DriverCall.execCall _ _ => true
  | _ => false

def isDeleteCallFor (id : String) : DriverCall → Bool
  | DriverCall.deleteCall _ n => n == id
  | _ => false

/-- The server's in-memory state plus the backing stores of the two
external cluster tools it shells out to. -/
structure ServerState where
  sandboxes : Registry
  creationLocks : List String
  kindClusters : List String
  k3dClusters : List String
  deriving DecidableEq, Repr

/-- Result of one internal step (`createCluster` / `deleteCluster`):
the new state, whether the promise resolved (`ok = true`) or threw
(`ok = false`), and the driver calls issued. -/
structure StepResult where
  state : ServerState
  ok : Bool
  calls : List DriverCall
  deriving DecidableEq, Repr

/-- `createCluster(sandboxId)` (server.js lines 43-68): write the kind
config file to /tmp, run `kind create cluster --config …`, unlink the
file, and only then `sandboxes.set(sandboxId, Date.now())`.  Any failure
is rethrown by the catch block; `writeOk`, `createOk`, `unlinkOk` are the
outcomes of the three external steps. -/
def createCluster (writeOk createOk unlinkOk : Bool) (st : ServerState)
    (sandboxId : String) (now : Nat) : StepResult :=
  if !writeOk then ⟨st, false, []⟩
  else if !createOk then ⟨st, false, [DriverCall.createCall "kind" sandboxId]⟩
  else
    let st1 : ServerState :=
      { st with kindClusters := st.kindClusters ++ [sandboxId] }
    if !unlinkOk then ⟨st1, false, [DriverCall.createCall "kind" sandboxId]⟩
    else
      ⟨{ st1 with sandboxes := mapSet st1.sandboxes sandboxId now }, true,
        [DriverCall.createCall "kind" sandboxId]⟩

/-- `createCluster(sandboxId)` of the older k3d revision (part_000 lines
42-75): `k3d cluster create … --wait`, a 10 s sleep, then a
`kubectl … wait --for=condition=Ready … --timeout=30s` readiness check,
and only then `sandboxes.set(sandboxId, Date.now())`. -/
def createClusterV0 (createOk waitOk : Bool) (st : ServerState)
    (sandboxId : String) (now : Nat) : StepResult :=
  if !createOk then ⟨st, false, [DriverCall.createCall "k3d" sandboxId]⟩
  else
    let st1 : ServerState :=
      { st with k3dClusters := st.k3dClusters ++ [sandboxId] }
    let calls := [DriverCall.createCall "k3d" sandboxId,
      DriverCall.execCall ("k3d-" ++ sandboxId)
        ["wait", "--for=condition=Ready", "nodes", "--all", "--timeout=30s"]]
    if !waitOk then ⟨st1, false, calls⟩
    else
      ⟨{ st1 with sandboxes := mapSet st1.sandboxes sandboxId now }, true, calls⟩

/-- `deleteCluster(sandboxId)` (server.js lines 70-77):
`kind delete cluster --name <id>`, then `sandboxes.delete(id)`.  `delOk`
is the outcome of the external call; per the driver contract deleting an
absent name also reports success, so `delOk = true` covers that case
(removal from the backing store is then a no-op). -/
def deleteCluster (delOk : Bool) (st : ServerState) (sandboxId : String) :
    StepResult :=
  if delOk then
    ⟨{ st with
        kindClusters := st.kindClusters.filter (fun n => decide (n ≠ sandboxId)),
        sandboxes := mapDelete st.sandboxes sandboxId }, true,
      [DriverCall.deleteCall "kind" sandboxId]⟩
  else ⟨st, false, [DriverCall.deleteCall "kind" sandboxId]⟩

/-- Result of a sweeper pass: final state and driver calls issued. -/
structure SweepResult where
  state : ServerState
  calls : List DriverCall
  deriving DecidableEq, Repr

/-- Body of the `for (const [sandboxId, createdAt] of sandboxes.entries())`
loop of `cleanupExpiredSandboxes` (server.js lines 25-35): if
`now - createdAt > SANDBOX_LIFETIME_MS`, try `deleteCluster` then
`sandboxes.delete`; a throw is caught and logged, the loop continues. -/
def sweepStep (delOk : String → Bool) (now : Nat) (acc : SweepResult)
    (entry : String × Nat) : SweepResult :=
  if now - entry.2 > SANDBOX_LIFETIME_MS then
    let r := deleteCluster (delOk entry.1) acc.state entry.1
    if r.ok then
      ⟨{ r.state with sandboxes := mapDelete r.state.sandboxes entry.1 },
        acc.calls ++ r.calls⟩
    else ⟨acc.state, acc.calls ++ r.calls⟩
  else acc

/-- `cleanupExpiredSandboxes()` (server.js lines 21-36), run by the cron
schedule every five minutes.  The JS loop iterates the live Map; since each
iteration removes only the entry it is visiting, iterating the initial
snapshot is equivalent. -/
def cleanupExpiredSandboxes (delOk : String → Bool) (now : Nat)
    (st : ServerState) : SweepResult :=
  st.sandboxes.foldl (sweepStep delOk now) ⟨st, []⟩

/-- Outcome of the `validateSandbox` middleware. -/
inductive ValidateOutcome where
  /-- no `sandboxId` cookie: 401 -/
  | unauthorized
  /-- the list query did not confirm the cluster: 404, cookie cleared,
  Registry entry removed -/
  | notFound
  /-- `next()` was called with this sandbox id -/
  | live (sandboxId : String)
  deriving DecidableEq, Repr

structure ValidateResult where
  state : ServerState
  outcome : ValidateOutcome
  cookieCleared : Bool
  calls : List DriverCall
  deriving DecidableEq, Repr

/-- `validateSandbox` middleware (server.js lines 96-113): reads the
`sandboxId` cookie; absent cookie is a 401.  Otherwise it runs
`k3d cluster list <sandboxId>` — note: `k3d`, not the `kind` tool that
`createCluster` / `deleteCluster` / `executeKubectlCommand` use.  That
command succeeds exactly when `k3d`'s store has a cluster of that name;
on failure the cookie is cleared, the Registry entry removed, and 404
returned. -/
def validateSandbox (st : ServerState) (cookieSandboxId : Option String) :
    ValidateResult :=
  match cookieSandboxId with
  | none => ⟨st, ValidateOutcome.unauthorized, false, []⟩
  | some sandboxId =>
    if sandboxId ∈ st.k3dClusters then
      ⟨st, ValidateOutcome.live sandboxId, false,
        [DriverCall.listCall "k3d" (some sandboxId)]⟩
    else
      ⟨{ st with sandboxes := mapDelete st.sandboxes sandboxId },
        ValidateOutcome.notFound, true,
        [DriverCall.listCall "k3d" (some sandboxId)]⟩

/-- Helper for `jsSplit`: walk the character list, cutting at each
separator occurrence (consecutive separators yield empty segments, as in
JS `String.prototype.split`). -/
def jsSplitAux (sep : Char) : List Char → List Char → List String
  | [], acc => [String.mk acc.reverse]
  | c :: cs, acc =>
    if c = sep then String.mk acc.reverse :: jsSplitAux sep cs []
    else jsSplitAux sep cs (c :: acc)

/-- JS `s.split(sep)` for a one-character separator: every occurrence of
`sep` cuts, empty segments are kept, `"".split(sep) = [""]`. -/
def jsSplit (s : String) (sep : Char) : List String :=
  jsSplitAux sep s.toList []

/-- `executeKubectlCommand(sandboxId, command)` (server.js lines 115-127):
`command.split(' ')`, then `kubectl --context kind-<id> …args`; returns the
result's stdout, or throws.  `execStdout` gives the outcome of the external
call on the full argument list (`none` = the call failed). -/
def executeKubectlCommand (execStdout : List String → Option String)
    (sandboxId command : String) : Option String × List DriverCall :=
  let args := jsSplit command ' '
  (execStdout (["--context", "kind-" ++ sandboxId] ++ args),
    [DriverCall.execCall ("kind-" ++ sandboxId) args])

/-- A JavaScript value as far as the exec route's `output` field needs:
a string or `undefined`. -/
inductive JsVal where
  | str (s : String)
  | undefined
  deriving DecidableEq, Repr

/-- JS property access `v.stdout`.  A plain string value has no `stdout`
property, so the access evaluates to `undefined`. -/
def getStdoutProp : JsVal → JsVal
  | JsVal.str _ => JsVal.undefined
  | JsVal.undefined => JsVal.undefined

structure ExecResponse where
  status : Nat
  /-- the `output` field of the JSON body (`undefined` = field absent) -/
  output : JsVal
  cookieCleared : Bool
  deriving DecidableEq, Repr

structure ExecResult where
  state : ServerState
  response : ExecResponse
  calls : List DriverCall
  deriving DecidableEq, Repr

/-- `router.post('/sandbox/exec', validateSandbox, …)` (server.js lines
167-187).  After validation: `if (!command)` → 400 (JS falsiness: both a
missing field and the empty string).  Otherwise
`const result = await executeKubectlCommand(sandboxId, command)` — already
a string — and the body is `{ …, output: result.stdout }`, a property
access on that string. -/
def postSandboxExec (execStdout : List String → Option String)
    (st : ServerState) (cookieSandboxId : Option String)
    (command? : Option String) : ExecResult :=
  let v := validateSandbox st cookieSandboxId
  match v.outcome with
  | ValidateOutcome.unauthorized =>
    ⟨v.state, ⟨401, JsVal.undefined, v.cookieCleared⟩, v.calls⟩
  | ValidateOutcome.notFound =>
    ⟨v.state, ⟨404, JsVal.undefined, v.cookieCleared⟩, v.calls⟩
  | ValidateOutcome.live sandboxId =>
    match command? with
    | none => ⟨v.state, ⟨400, JsVal.undefined, false⟩, v.calls⟩
    | some command =>
      if command = "" then ⟨v.state, ⟨400, JsVal.undefined, false⟩, v.calls⟩
      else
        let r := executeKubectlCommand execStdout sandboxId command
        match r.1 with
        | some stdout =>
          ⟨v.state, ⟨200, getStdoutProp (JsVal.str stdout), false⟩,
            v.calls ++ r.2⟩
        | none => ⟨v.state, ⟨500, JsVal.undefined, false⟩, v.calls ++ r.2⟩

structure CreateResponse where
  status : Nat
  /-- the `sandboxId` field of the JSON body (absent on error) -/
  sandboxId? : Option String
  /-- the body's message was 'Using existing sandbox' -/
  reused : Bool
  /-- value of `res.cookie('sandboxId', …)` if set -/
  cookieSet : Option String
  cookieCleared : Bool
  deriving DecidableEq, Repr

structure CreateResult where
  state : ServerState
  response : CreateResponse
  calls : List DriverCall
  deriving DecidableEq, Repr

/-- The fresh-creation tail of the `POST /sandbox` handler (server.js
lines 146-164): `sandboxId = 'sb-' + generateId()`, `createCluster`, set
the cookie, 200 — or catch and 500. -/
def createFresh (writeOk createOk unlinkOk : Bool) (freshId : String)
    (now : Nat) (st : ServerState) (cookieCleared : Bool)
    (priorCalls : List DriverCall) : CreateResult :=
  let sandboxId := "sb-" ++ freshId
  let r := createCluster writeOk createOk unlinkOk st sandboxId now
  if r.ok then
    ⟨r.state, ⟨200, some sandboxId, false, some sandboxId, cookieCleared⟩,
      priorCalls ++ r.calls⟩
  else
    ⟨r.state, ⟨500, none, false, none, cookieCleared⟩, priorCalls ++ r.calls⟩

/-- `router.post('/sandbox', …)` handler body (server.js lines 129-165),
after the admission middleware.  With a `sandboxId` cookie it first runs
`k3d cluster list <id>`: on success it answers 'Using existing sandbox'
without touching any state; on failure it clears the cookie, removes the
Registry entry, and falls through to fresh creation.  `freshId` is the
value `generateId()` returns. -/
def postSandbox (writeOk createOk unlinkOk : Bool) (freshId : String)
    (now : Nat) (st : ServerState) (cookieSandboxId : Option String) :
    CreateResult :=
  match cookieSandboxId with
  | some existingSandboxId =>
    if existingSandboxId ∈ st.k3dClusters then
      ⟨st, ⟨200, some existingSandboxId, true, none, false⟩,
        [DriverCall.listCall "k3d" (some existingSandboxId)]⟩
    else
      createFresh writeOk createOk unlinkOk freshId now
        { st with sandboxes := mapDelete st.sandboxes existingSandboxId }
        true [DriverCall.listCall "k3d" (some existingSandboxId)]
  | none => createFresh writeOk createOk unlinkOk freshId now st false []

structure DeleteResponse where
  status : Nat
  cookieCleared : Bool
  deriving DecidableEq, Repr

structure DeleteResult where
  state : ServerState
  response : DeleteResponse
  calls : List DriverCall
  deriving DecidableEq, Repr

/-- `router.delete('/sandbox', validateSandbox, …)` (server.js lines
189-201): after validation, `deleteCluster(sandboxId)` then
`res.clearCookie` and 200; a throw is caught as 500 (no cookie clearing
on that path). -/
def deleteSandboxRoute (delOk : Bool) (st : ServerState)
    (cookieSandboxId : Option String) : DeleteResult :=
  let v := validateSandbox st cookieSandboxId
  match v.outcome with
  | ValidateOutcome.unauthorized => ⟨v.state, ⟨401, v.cookieCleared⟩, v.calls⟩
  | ValidateOutcome.notFound => ⟨v.state, ⟨404, v.cookieCleared⟩, v.calls⟩
  | ValidateOutcome.live sandboxId =>
    let r := deleteCluster delOk v.state sandboxId
    if r.ok then ⟨r.state, ⟨200, true⟩, v.calls ++ r.calls⟩
    else ⟨r.state, ⟨500, false⟩, v.calls ++ r.calls⟩

/-- `preventConcurrentRequests` composed with the `POST /sandbox` handler
(server.js lines 79-94 and 129-165): if a creation lock is held for
`clientIp`, answer 429 immediately (no driver call, `next()` not called);
otherwise set the lock, run the handler, and — because the handler answers
on every path (its whole body is inside try/catch and both branches call
`res.json`) — the registered `res.on('finish')` callback deletes the lock
once the response is sent. -/
def handleCreateRequest (writeOk createOk unlinkOk : Bool) (freshId : String)
    (now : Nat) (clientIp : String) (st : ServerState)
    (cookieSandboxId : Option String) : CreateResult :=
  if clientIp ∈ st.creationLocks then
    ⟨st, ⟨429, none, false, none, false⟩, []⟩
  else
    let st1 : ServerState :=
      { st with creationLocks := clientIp :: st.creationLocks }
    let r := postSandbox writeOk createOk unlinkOk freshId now st1 cookieSandboxId
    ⟨{ r.state with
        creationLocks :=
          r.state.creationLocks.filter (fun c => decide (c ≠ clientIp)) },
      r.response, r.calls⟩

/-- Events of the admission guard seen from the `creationLocks` map:
a creation request reaching the middleware, and the response of a
previously granted request finishing (which fires its `res.on('finish')`
callback). -/
inductive GuardEvent where
  | request (clientIp : String)
  | finish (clientIp : String)
  deriving DecidableEq, Repr

/-- Run the guard over a trace of events. Returns the final lock map
(as the list of locked client ips) and, for each request event in order,
the pair (client ip, granted?). -/
def runGuard (locks : List String) : List GuardEvent → List String × List (String × Bool)
  | [] => (locks, [])
  | GuardEvent.request c :: evs =>
    if c ∈ locks then
      let r := runGuard locks evs
      (r.1, (c, false) :: r.2)
    else
      let r := runGuard (c :: locks) evs
      (r.1, (c, true) :: r.2)
  | GuardEvent.finish c :: evs =>
    runGuard (locks.filter (fun x => decide (x ≠ c))) evs

/-- How many request events of client `c` were granted. -/
def countGranted (c : String) (outs : List (String × Bool)) : Nat :=
  (outs.filter (fun p => p.1 == c && p.2)).length

/-! ## Helper lemmas -/

theorem mem_mapDelete (m : Registry) (k : String) (q : String × Nat) :
    q ∈ mapDelete m k ↔ q ∈ m ∧ q.1 ≠ k := by
  simp [mapDelete, List.mem_filter]

theorem mapDelete_idem (m : Registry) (k : String) :
    mapDelete (mapDelete m k) k = mapDelete m k := by
  simp [mapDelete, List.filter_filter]

theorem not_mem_keys_mapDelete (m : Registry) (k : String) :
    k ∉ (mapDelete m k).map Prod.fst := by
  intro h
  rcases List.mem_map.mp h with ⟨q, hq, hqk⟩
  exact ((mem_mapDelete m k q).mp hq).2 hqk

/-- The condition under which a sweep iteration removes an entry:
it is strictly past its lifetime and the driver delete call succeeds. -/
def expiredDel (delOk : String → Bool) (now : Nat) (p : String × Nat) : Bool :=
  decide (now - p.2 > SANDBOX_LIFETIME_MS) && delOk p.1

theorem sweepStep_sandboxes (delOk : String → Bool) (now : Nat)
    (acc : SweepResult) (p : String × Nat) :
    (sweepStep delOk now acc p).state.sandboxes =
      if expiredDel delOk now p then mapDelete acc.state.sandboxes p.1
      else acc.state.sandboxes := by
  by_cases h1 : now - p.2 > SANDBOX_LIFETIME_MS
  · cases h2 : delOk p.1 <;>
      simp [sweepStep, deleteCluster, expiredDel, h1, h2, mapDelete_idem, mapDelete]
  · simp [sweepStep, expiredDel, h1]

theorem sweep_foldl_sandboxes (delOk : String → Bool) (now : Nat) :
    ∀ (l : Registry) (acc : SweepResult),
      (l.foldl (sweepStep delOk now) acc).state.sandboxes =
        l.foldl (fun m p => if expiredDel delOk now p then mapDelete m p.1 else m)
          acc.state.sandboxes
  | [], _ => rfl
  | p :: l, acc => by
    rw [List.foldl_cons, List.foldl_cons, sweep_foldl_sandboxes delOk now l,
      sweepStep_sandboxes]

theorem mem_foldl_mapDelete (cond : String × Nat → Bool) :
    ∀ (l m : Registry) (q : String × Nat),
      (q ∈ l.foldl (fun m p => if cond p then mapDelete m p.1 else m) m) ↔
        (q ∈ m ∧ ∀ p ∈ l, cond p = true → q.1 ≠ p.1)
  | [], m, q => by simp
  | p :: l, m, q => by
    rw [List.foldl_cons, mem_foldl_mapDelete cond l _ q, List.forall_mem_cons]
    by_cases h : cond p
    · simp only [h, if_pos, mem_mapDelete]
      tauto
    · simp only [h, if_neg, Bool.false_eq_true, false_implies, true_and]
      tauto

/-! ## Claim theorems -/

/-- Claim C1: `validate(sandboxId)` returns live iff the id is a member of
the name sequence returned by the list operation of the same Cluster Driver
whose create/delete/exec operations manage the sandbox's cluster.  The code
refutes this: `createCluster`, `deleteCluster` and `executeKubectlCommand`
drive the `kind` tool, but `validateSandbox` queries `k3d cluster list`.
Concretely, after a fully successful `createCluster` the new sandbox is in
the creating driver's store, yet `validateSandbox` reports it not found
(dead). -/
theorem C1_validate_queries_wrong_driver :
    ((createCluster true true true ⟨[], [], [], []⟩ "sb-abc1234567" 0).ok = true) ∧
    ("sb-abc1234567" ∈
      (createCluster true true true ⟨[], [], [], []⟩ "sb-abc1234567" 0).state.kindClusters) ∧
    ((validateSandbox
        (createCluster true true true ⟨[], [], [], []⟩ "sb-abc1234567" 0).state
        (some "sb-abc1234567")).outcome = ValidateOutcome.notFound) := by
  decide

/-- Claim C2 as stated (a live-token create called twice makes exactly one
driver creation call) is false at a concrete input: with the cookie bound
to live sandbox `sb-x`, both calls take the reuse path, so the two calls
together make zero creation calls, not one; both responses do carry
`sb-x`. -/
theorem C2_counterexample :
    ((postSandbox true true true "aaaaaaaaaa" 5 ⟨[], [], [], ["sb-x"]⟩
        (some "sb-x")).calls ++
      (postSandbox true true true "bbbbbbbbbb" 9
        (postSandbox true true true "aaaaaaaaaa" 5 ⟨[], [], [], ["sb-x"]⟩
          (some "sb-x")).state (some "sb-x")).calls).countP isCreateCall = 0 ∧
    ¬ ((postSandbox true true true "aaaaaaaaaa" 5 ⟨[], [], [], ["sb-x"]⟩
        (some "sb-x")).calls ++
      (postSandbox true true true "bbbbbbbbbb" 9
        (postSandbox true true true "aaaaaaaaaa" 5 ⟨[], [], [], ["sb-x"]⟩
          (some "sb-x")).state (some "sb-x")).calls).countP isCreateCall = 1 ∧
    (postSandbox true true true "aaaaaaaaaa" 5 ⟨[], [], [], ["sb-x"]⟩
      (some "sb-x")).response.sandboxId? = some "sb-x" ∧
    (postSandbox true true true "bbbbbbbbbb" 9
      (postSandbox true true true "aaaaaaaaaa" 5 ⟨[], [], [], ["sb-x"]⟩
        (some "sb-x")).state (some "sb-x")).response.sandboxId? = some "sb-x" := by
  decide

/-- Claim C2, amended: with a session token bound to a sandbox that
validates as live, calling create twice in a row makes **no** driver
creation call at all (both calls take the reuse path), both responses
carry the same sandbox id, and the state is unchanged. -/
theorem C2_reuse_idempotent (writeOk createOk unlinkOk : Bool)
    (freshId1 freshId2 : String) (now1 now2 : Nat) (st : ServerState)
    (id : String) (hlive : id ∈ st.k3dClusters) :
    (postSandbox writeOk createOk unlinkOk freshId1 now1 st
        (some id)).response.sandboxId? = some id ∧
    (postSandbox writeOk createOk unlinkOk freshId2 now2
        (postSandbox writeOk createOk unlinkOk freshId1 now1 st (some id)).state
        (some id)).response.sandboxId? = some id ∧
    ((postSandbox writeOk createOk unlinkOk freshId1 now1 st (some id)).calls ++
      (postSandbox writeOk createOk unlinkOk freshId2 now2
        (postSandbox writeOk createOk unlinkOk freshId1 now1 st (some id)).state
        (some id)).calls).countP isCreateCall = 0 ∧
    (postSandbox writeOk createOk unlinkOk freshId2 now2
      (postSandbox writeOk createOk unlinkOk freshId1 now1 st (some id)).state
      (some id)).state = st := by
  simp [postSandbox, hlive, isCreateCall]

theorem C2_reuse_idempotent_witness :
    (postSandbox true true true "aaaaaaaaaa" 5 ⟨[("sb-x", 1)], [], [], ["sb-x"]⟩
        (some "sb-x")).response.sandboxId? = some "sb-x" ∧
    (postSandbox true true true "bbbbbbbbbb" 9
        (postSandbox true true true "aaaaaaaaaa" 5
          ⟨[("sb-x", 1)], [], [], ["sb-x"]⟩ (some "sb-x")).state
        (some "sb-x")).response.sandboxId? = some "sb-x" ∧
    ((postSandbox true true true "aaaaaaaaaa" 5 ⟨[("sb-x", 1)], [], [], ["sb-x"]⟩
        (some "sb-x")).calls ++
      (postSandbox true true true "bbbbbbbbbb" 9
        (postSandbox true true true "aaaaaaaaaa" 5
          ⟨[("sb-x", 1)], [], [], ["sb-x"]⟩ (some "sb-x")).state
        (some "sb-x")).calls).countP isCreateCall = 0 ∧
    (postSandbox true true true "bbbbbbbbbb" 9
      (postSandbox true true true "aaaaaaaaaa" 5
        ⟨[("sb-x", 1)], [], [], ["sb-x"]⟩ (some "sb-x")).state
      (some "sb-x")).state = ⟨[("sb-x", 1)], [], [], ["sb-x"]⟩ :=
  C2_reuse_idempotent true true true "aaaaaaaaaa" "bbbbbbbbbb" 5 9
    ⟨[("sb-x", 1)], [], [], ["sb-x"]⟩ "sb-x" (by decide)

/-- Claim C3 as stated says a sandbox created at `T` with lifetime `L` is
deleted by any Sweeper run with `now ≥ T + L`.  The code uses a strict
comparison (`now - createdAt > SANDBOX_LIFETIME_MS`), so at the boundary
`now = T + L` the sandbox is **not** deleted. -/
theorem C3_counterexample :
    (cleanupExpiredSandboxes (fun _ => true) SANDBOX_LIFETIME_MS
      ⟨[("sb-abc1234567", 0)], [], ["sb-abc1234567"], []⟩).state.sandboxes
      = [("sb-abc1234567", 0)] := by
  decide

/-- Claim C3, amended with a strict bound: a Registry entry created at `T`
is deleted by a Sweeper run at `now` exactly when `now > T + L` (given the
driver delete succeeds), and is never deleted when `now ≤ T + L`. -/
theorem C3_sweeper_strict_expiry (delOk : String → Bool) (st : ServerState)
    (id : String) (T now : Nat) (hmem : (id, T) ∈ st.sandboxes)
    (hnodup : (st.sandboxes.map Prod.fst).Nodup) (hok : delOk id = true) :
    (T + SANDBOX_LIFETIME_MS < now →
      id ∉ (cleanupExpiredSandboxes delOk now st).state.sandboxes.map Prod.fst) ∧
    (now ≤ T + SANDBOX_LIFETIME_MS →
      (id, T) ∈ (cleanupExpiredSandboxes delOk now st).state.sandboxes) := by
  have hs : (cleanupExpiredSandboxes delOk now st).state.sandboxes =
      st.sandboxes.foldl
        (fun m p => if expiredDel delOk now p then mapDelete m p.1 else m)
        st.sandboxes := by
    unfold cleanupExpiredSandboxes
    exact sweep_foldl_sandboxes delOk now st.sandboxes ⟨st, []⟩
  constructor
  · intro hlt hmemk
    rcases List.mem_map.mp hmemk with ⟨q, hq, hq1⟩
    rw [hs, mem_foldl_mapDelete] at hq
    have hcond : expiredDel delOk now (id, T) = true := by
      simp only [expiredDel, hok, Bool.and_true, decide_eq_true_eq]
      omega
    exact hq.2 (id, T) hmem hcond hq1
  · intro hle
    rw [hs, mem_foldl_mapDelete]
    refine ⟨hmem, ?_⟩
    intro p hp hcond heq
    have hpT : p = (id, T) :=
      List.inj_on_of_nodup_map hnodup hp hmem heq.symm
    rw [hpT] at hcond
    simp only [expiredDel, hok, Bool.and_true, decide_eq_true_eq] at hcond
    omega

theorem C3_sweeper_strict_expiry_witness :
    "sb-abc1234567" ∉
      (cleanupExpiredSandboxes (fun _ => true) (SANDBOX_LIFETIME_MS + 1)
        ⟨[("sb-abc1234567", 0)], [], ["sb-abc1234567"], []⟩).state.sandboxes.map
        Prod.fst :=
  (C3_sweeper_strict_expiry (fun _ => true)
    ⟨[("sb-abc1234567", 0)], [], ["sb-abc1234567"], []⟩ "sb-abc1234567" 0
    (SANDBOX_LIFETIME_MS + 1) (by decide) (by decide) (by decide)).1 (by decide)

/-- Claim C4: the exec route's `output` field equals the raw stdout of the
driver's execute-in-context call.  The code refutes this: the handler does
`output: result.stdout` where `result` is already the stdout **string**
returned by `executeKubectlCommand`, so the `output` field is `undefined`
(absent from the JSON body), not the stdout text.  The command is split
into argument form and forwarded, as the log entry shows. -/
theorem C4_exec_output_is_undefined :
    ((postSandboxExec (fun _ => some "pod1 Running")
        ⟨[("sb-x", 0)], [], [], ["sb-x"]⟩ (some "sb-x")
        (some "get pods")).response.status = 200) ∧
    (DriverCall.execCall "kind-sb-x" ["get", "pods"] ∈
      (postSandboxExec (fun _ => some "pod1 Running")
        ⟨[("sb-x", 0)], [], [], ["sb-x"]⟩ (some "sb-x")
        (some "get pods")).calls) ∧
    ((postSandboxExec (fun _ => some "pod1 Running")
        ⟨[("sb-x", 0)], [], [], ["sb-x"]⟩ (some "sb-x")
        (some "get pods")).response.output = JsVal.undefined) ∧
    ((postSandboxExec (fun _ => some "pod1 Running")
        ⟨[("sb-x", 0)], [], [], ["sb-x"]⟩ (some "sb-x")
        (some "get pods")).response.output ≠ JsVal.str "pod1 Running") := by
  decide

/-- Claim C5: a failed creation attempt surfaces a creation failure and
leaves no Registry entry behind — registration happens only after the
driver confirms success.  Proved for the current `createCluster` (any of
config write, driver create, config unlink failing), for the older
revision's `createClusterV0` (driver create or readiness wait failing),
and at route level: when any step fails the route answers 500 and the
Registry is unchanged. -/
theorem C5_create_failure_no_registry_entry
    (writeOk createOk unlinkOk waitOk : Bool) (st : ServerState)
    (id freshId : String) (now : Nat) :
    ((createCluster writeOk createOk unlinkOk st id now).ok = false →
      (createCluster writeOk createOk unlinkOk st id now).state.sandboxes
        = st.sandboxes) ∧
    ((createClusterV0 createOk waitOk st id now).ok = false →
      (createClusterV0 createOk waitOk st id now).state.sandboxes
        = st.sandboxes) ∧
    ((writeOk && createOk && unlinkOk) = false →
      (postSandbox writeOk createOk unlinkOk freshId now st none).response.status
          = 500 ∧
        (postSandbox writeOk createOk unlinkOk freshId now st none).state.sandboxes
          = st.sandboxes) := by
  cases writeOk <;> cases createOk <;> cases unlinkOk <;> cases waitOk <;>
    simp [createCluster, createClusterV0, postSandbox, createFresh]

theorem C5_create_failure_no_registry_entry_witness :
    ((createCluster true false true ⟨[("a", 1)], [], [], []⟩ "sb-z" 7).state.sandboxes
      = [("a", 1)]) ∧
    ((createClusterV0 false true ⟨[("a", 1)], [], [], []⟩ "sb-z" 7).state.sandboxes
      = [("a", 1)]) ∧
    ((postSandbox true false true "zzzzzzzzzz" 7 ⟨[("a", 1)], [], [], []⟩
        none).response.status = 500 ∧
      (postSandbox true false true "zzzzzzzzzz" 7 ⟨[("a", 1)], [], [], []⟩
        none).state.sandboxes = [("a", 1)]) :=
  ⟨(C5_create_failure_no_registry_entry true false true true
      ⟨[("a", 1)], [], [], []⟩ "sb-z" "zzzzzzzzzz" 7).1 (by decide),
    (C5_create_failure_no_registry_entry true false true true
      ⟨[("a", 1)], [], [], []⟩ "sb-z" "zzzzzzzzzz" 7).2.1 (by decide),
    (C5_create_failure_no_registry_entry true false true true
      ⟨[("a", 1)], [], [], []⟩ "sb-z" "zzzzzzzzzz" 7).2.2 (by decide)⟩

/-- Claim C6 says a creation attempt that fails after the driver create
call was issued makes a best-effort attempt to delete the partially
created cluster.  The code refutes this at a concrete input: with the
create call succeeding but the following step (config unlink) failing,
the catch block simply rethrows — one create call was issued and zero
delete calls. -/
theorem C6_counterexample :
    ((createCluster true true false ⟨[], [], [], []⟩ "sb-abc1234567" 0).ok
      = false) ∧
    ((createCluster true true false ⟨[], [], [], []⟩
        "sb-abc1234567" 0).calls.countP isCreateCall = 1) ∧
    ((createCluster true true false ⟨[], [], [], []⟩
        "sb-abc1234567" 0).calls.countP isDeleteCall = 0) := by
  decide

/-- Claim C6, amended: a creation attempt that fails — at any step,
including after the driver create call was issued — makes **no** driver
delete call at all (no cleanup of a partially-created cluster is
attempted), in both revisions of `createCluster`. -/
theorem C6_no_cleanup_attempt_on_failed_creation
    (writeOk createOk unlinkOk waitOk : Bool) (st : ServerState)
    (id : String) (now : Nat) :
    ((createCluster writeOk createOk unlinkOk st id now).ok = false →
      (createCluster writeOk createOk unlinkOk st id now).calls.countP
        isDeleteCall = 0) ∧
    ((createClusterV0 createOk waitOk st id now).ok = false →
      (createClusterV0 createOk waitOk st id now).calls.countP
        isDeleteCall = 0) := by
  cases writeOk <;> cases createOk <;> cases unlinkOk <;> cases waitOk <;>
    simp [createCluster, createClusterV0, isDeleteCall, List.countP_cons,
      List.countP_nil]

theorem C6_no_cleanup_attempt_witness :
    ((createCluster true true false ⟨[], [], [], []⟩
        "sb-abc1234567" 0).calls.countP isDeleteCall = 0) ∧
    ((createClusterV0 false true ⟨[], [], [], []⟩
        "sb-abc1234567" 0).calls.countP isDeleteCall = 0) :=
  ⟨(C6_no_cleanup_attempt_on_failed_creation true true false true
      ⟨[], [], [], []⟩ "sb-abc1234567" 0).1 (by decide),
    (C6_no_cleanup_attempt_on_failed_creation true false true true
      ⟨[], [], [], []⟩ "sb-abc1234567" 0).2 (by decide)⟩

/-- Claim C7: on a validated sandbox id, the delete route invokes driver
deletion and then removes the Registry entry and clears the client token,
regardless of whether the driver reports the cluster as already absent.
Per the driver contract, deleting an absent name also reports success
(`delOk = true`); the theorem places no assumption on `kindClusters`, so
it covers both the present and the already-absent cluster. -/
theorem C7_delete_removes_entry_clears_token (st : ServerState) (id : String)
    (hvalid : id ∈ st.k3dClusters) :
    ((deleteSandboxRoute true st (some id)).response.status = 200) ∧
    ((deleteSandboxRoute true st (some id)).response.cookieCleared = true) ∧
    (id ∉ (deleteSandboxRoute true st (some id)).state.sandboxes.map Prod.fst) := by
  refine ⟨?_, ?_, ?_⟩
  · simp [deleteSandboxRoute, validateSandbox, hvalid, deleteCluster]
  · simp [deleteSandboxRoute, validateSandbox, hvalid, deleteCluster]
  · simpa [deleteSandboxRoute, validateSandbox, hvalid, deleteCluster] using
      not_mem_keys_mapDelete st.sandboxes id

theorem C7_delete_removes_entry_clears_token_witness :
    ((deleteSandboxRoute true ⟨[("sb-x", 0)], [], [], ["sb-x"]⟩
        (some "sb-x")).response.status = 200) ∧
    ((deleteSandboxRoute true ⟨[("sb-x", 0)], [], [], ["sb-x"]⟩
        (some "sb-x")).response.cookieCleared = true) ∧
    ("sb-x" ∉ (deleteSandboxRoute true ⟨[("sb-x", 0)], [], [], ["sb-x"]⟩
        (some "sb-x")).state.sandboxes.map Prod.fst) :=
  C7_delete_removes_entry_clears_token ⟨[("sb-x", 0)], [], [], ["sb-x"]⟩
    "sb-x" (by decide)

/-- Claim C8 says a missing-command exec request is rejected before **any**
Cluster Driver call.  The code refutes this at a concrete input: the
`validateSandbox` middleware runs first and issues the driver's list call;
only then does the handler answer 400, so the call log is non-empty. -/
theorem C8_counterexample :
    ((postSandboxExec (fun _ => some "out") ⟨[("sb-x", 0)], [], [], ["sb-x"]⟩
        (some "sb-x") none).response.status = 400) ∧
    ((postSandboxExec (fun _ => some "out") ⟨[("sb-x", 0)], [], [], ["sb-x"]⟩
        (some "sb-x") none).calls
      = [DriverCall.listCall "k3d" (some "sb-x")]) ∧
    ((postSandboxExec (fun _ => some "out") ⟨[("sb-x", 0)], [], [], ["sb-x"]⟩
        (some "sb-x") none).calls ≠ []) := by
  decide

/-- Claim C8, amended: a missing-command exec request (absent field or
empty string) on a live sandbox is rejected as a client error (400) before
any driver **execute** call is made — the session-validation list query
does run first — and the state is unchanged. -/
theorem C8_missing_command_rejected_before_exec
    (execStdout : List String → Option String) (st : ServerState)
    (id : String) (command? : Option String) (hvalid : id ∈ st.k3dClusters)
    (hmissing : command? = none ∨ command? = some "") :
    ((postSandboxExec execStdout st (some id) command?).response.status = 400) ∧
    ((postSandboxExec execStdout st (some id) command?).calls.countP
      isExecCall = 0) ∧
    ((postSandboxExec execStdout st (some id) command?).state = st) := by
  rcases hmissing with h | h <;> subst h <;>
    simp [postSandboxExec, validateSandbox, hvalid, isExecCall,
      List.countP_cons, List.countP_nil]

theorem C8_missing_command_rejected_witness :
    ((postSandboxExec (fun _ => some "out") ⟨[("sb-x", 0)], [], [], ["sb-x"]⟩
        (some "sb-x") none).response.status = 400) ∧
    ((postSandboxExec (fun _ => some "out") ⟨[("sb-x", 0)], [], [], ["sb-x"]⟩
        (some "sb-x") none).calls.countP isExecCall = 0) ∧
    ((postSandboxExec (fun _ => some "out") ⟨[("sb-x", 0)], [], [], ["sb-x"]⟩
        (some "sb-x") none).state = ⟨[("sb-x", 0)], [], [], ["sb-x"]⟩) :=
  C8_missing_command_rejected_before_exec (fun _ => some "out")
    ⟨[("sb-x", 0)], [], [], ["sb-x"]⟩ "sb-x" none (by decide) (Or.inl rfl)

theorem createCluster_locks (writeOk createOk unlinkOk : Bool)
    (st : ServerState) (id : String) (now : Nat) :
    (createCluster writeOk createOk unlinkOk st id now).state.creationLocks
      = st.creationLocks := by
  cases writeOk <;> cases createOk <;> cases unlinkOk <;> simp [createCluster]

theorem createFresh_state (writeOk createOk unlinkOk : Bool)
    (freshId : String) (now : Nat) (st : ServerState) (cc : Bool)
    (pc : List DriverCall) :
    (createFresh writeOk createOk unlinkOk freshId now st cc pc).state =
      (createCluster writeOk createOk unlinkOk st ("sb-" ++ freshId) now).state := by
  cases h : (createCluster writeOk createOk unlinkOk st ("sb-" ++ freshId) now).ok <;>
    simp [createFresh, h]

theorem postSandbox_locks (writeOk createOk unlinkOk : Bool)
    (freshId : String) (now : Nat) (st : ServerState)
    (cookie : Option String) :
    (postSandbox writeOk createOk unlinkOk freshId now st
      cookie).state.creationLocks = st.creationLocks := by
  cases cookie with
  | none =>
    show (createFresh writeOk createOk unlinkOk freshId now st false
      []).state.creationLocks = st.creationLocks
    rw [createFresh_state, createCluster_locks]
  | some e =>
    by_cases h : e ∈ st.k3dClusters
    · simp [postSandbox, h]
    · simp only [postSandbox, if_neg h]
      rw [createFresh_state, createCluster_locks]

theorem countGranted_cons (c : String) (p : String × Bool)
    (outs : List (String × Bool)) :
    countGranted c (p :: outs) =
      countGranted c outs + (if p.1 == c && p.2 then 1 else 0) := by
  simp only [countGranted, List.filter_cons]
  split <;> simp

/-- While a client's creation lock is held and no finish event of that
client occurs, every further request of that client is denied and the lock
stays held. -/
theorem runGuard_locked (c : String) :
    ∀ (evs : List GuardEvent) (locks : List String), c ∈ locks →
      GuardEvent.finish c ∉ evs →
      countGranted c (runGuard locks evs).2 = 0 ∧ c ∈ (runGuard locks evs).1
  | [], locks, hc, _ => by simp [runGuard, countGranted, hc]
  | GuardEvent.request c1 :: evs, locks, hc, hnf => by
    have hnf2 : GuardEvent.finish c ∉ evs :=
      fun h => hnf (List.mem_cons_of_mem _ h)
    by_cases h1 : c1 ∈ locks
    · have ih := runGuard_locked c evs locks hc hnf2
      simp only [runGuard, if_pos h1]
      exact ⟨by rw [countGranted_cons]; simp [ih.1], ih.2⟩
    · have ih := runGuard_locked c evs (c1 :: locks)
        (List.mem_cons_of_mem _ hc) hnf2
      simp only [runGuard, if_neg h1]
      have hne : (c1 == c) = false := by
        refine beq_eq_false_iff_ne.mpr ?_
        intro he
        exact h1 (he ▸ hc)
      exact ⟨by rw [countGranted_cons]; simp [hne, ih.1], ih.2⟩
  | GuardEvent.finish c1 :: evs, locks, hc, hnf => by
    have hne : c ≠ c1 := by
      intro he
      exact hnf (by rw [he]; exact List.mem_cons_self _ _)
    have hnf2 : GuardEvent.finish c ∉ evs :=
      fun h => hnf (List.mem_cons_of_mem _ h)
    have hc2 : c ∈ locks.filter (fun x => decide (x ≠ c1)) := by
      rw [List.mem_filter]
      exact ⟨hc, by simp [hne]⟩
    simpa only [runGuard] using runGuard_locked c evs _ hc2 hnf2

/-- In any event trace with no finish event for client `c`, starting
unlocked, exactly one of `c`'s requests is granted (the first one; all
later ones are denied). -/
theorem runGuard_exactly_one (c : String) :
    ∀ (evs : List GuardEvent) (locks : List String), c ∉ locks →
      GuardEvent.finish c ∉ evs → GuardEvent.request c ∈ evs →
      countGranted c (runGuard locks evs).2 = 1
  | [], _, _, _, hreq => absurd hreq (List.not_mem_nil _)
  | GuardEvent.request c1 :: evs, locks, hc, hnf, hreq => by
    have hnf2 : GuardEvent.finish c ∉ evs :=
      fun h => hnf (List.mem_cons_of_mem _ h)
    by_cases hcc : c1 = c
    · subst hcc
      simp only [runGuard, if_neg hc]
      rw [countGranted_cons]
      have h0 := runGuard_locked c1 evs (c1 :: locks)
        (List.mem_cons_self _ _) hnf2
      simp [h0.1]
    · have hreq2 : GuardEvent.request c ∈ evs := by
        rcases List.mem_cons.mp hreq with h | h
        · injection h with h2
          exact absurd h2.symm hcc
        · exact h
      have hb : (c1 == c) = false := beq_eq_false_iff_ne.mpr hcc
      by_cases h1 : c1 ∈ locks
      · simp only [runGuard, if_pos h1]
        rw [countGranted_cons]
        simp [hb, runGuard_exactly_one c evs locks hc hnf2 hreq2]
      · have hc2 : c ∉ c1 :: locks := by
          intro h
          rcases List.mem_cons.mp h with h | h
          · exact hcc h.symm
          · exact hc h
        simp only [runGuard, if_neg h1]
        rw [countGranted_cons]
        simp [hb, runGuard_exactly_one c evs (c1 :: locks) hc2 hnf2 hreq2]
  | GuardEvent.finish c1 :: evs, locks, hc, hnf, hreq => by
    have hnf2 : GuardEvent.finish c ∉ evs :=
      fun h => hnf (List.mem_cons_of_mem _ h)
    have hreq2 : GuardEvent.request c ∈ evs := by
      rcases List.mem_cons.mp hreq with h | h
      · simp at h
      · exact h
    have hc2 : c ∉ locks.filter (fun x => decide (x ≠ c1)) := by
      intro h
      exact hc (List.mem_filter.mp h).1
    simpa only [runGuard] using runGuard_exactly_one c evs _ hc2 hnf2 hreq2

/-- Claim C9: while a creation lock is held for a client identity, any
further creation request from it is answered 429 with no driver call and
no state change; over any trace without the granted request's finish
event, exactly one request of that client is granted; and the composed
request handler releases the lock on completion on every exit path (all
combinations of step outcomes), so the client is not locked out
afterwards. -/
theorem C9_admission_guard (writeOk createOk unlinkOk : Bool)
    (freshId : String) (now : Nat) (clientIp : String)
    (stHeld stFree : ServerState) (cookie1 cookie2 : Option String)
    (locks : List String) (evs : List GuardEvent)
    (hheld : clientIp ∈ stHeld.creationLocks)
    (hfree : clientIp ∉ stFree.creationLocks)
    (hstart : clientIp ∉ locks)
    (hnofin : GuardEvent.finish clientIp ∉ evs)
    (hreq : GuardEvent.request clientIp ∈ evs) :
    ((handleCreateRequest writeOk createOk unlinkOk freshId now clientIp
        stHeld cookie1).response.status = 429 ∧
      (handleCreateRequest writeOk createOk unlinkOk freshId now clientIp
        stHeld cookie1).calls = [] ∧
      (handleCreateRequest writeOk createOk unlinkOk freshId now clientIp
        stHeld cookie1).state = stHeld) ∧
    (clientIp ∉ (handleCreateRequest writeOk createOk unlinkOk freshId now
        clientIp stFree cookie2).state.creationLocks) ∧
    countGranted clientIp (runGuard locks evs).2 = 1 := by
  refine ⟨?_, ?_, ?_⟩
  · simp [handleCreateRequest, hheld]
  · simp only [handleCreateRequest, if_neg hfree]
    intro h
    rw [List.mem_filter] at h
    simp at h
  · exact runGuard_exactly_one clientIp evs locks hstart hnofin hreq

theorem C9_admission_guard_witness :
    ((handleCreateRequest true true true "aaaaaaaaaa" 3 "9.9.9.9"
        ⟨[], ["9.9.9.9"], [], []⟩ none).response.status = 429 ∧
      (handleCreateRequest true true true "aaaaaaaaaa" 3 "9.9.9.9"
        ⟨[], ["9.9.9.9"], [], []⟩ none).calls = [] ∧
      (handleCreateRequest true true true "aaaaaaaaaa" 3 "9.9.9.9"
        ⟨[], ["9.9.9.9"], [], []⟩ none).state = ⟨[], ["9.9.9.9"], [], []⟩) ∧
    ("9.9.9.9" ∉ (handleCreateRequest true true true "aaaaaaaaaa" 3 "9.9.9.9"
        ⟨[], [], [], []⟩ none).state.creationLocks) ∧
    countGranted "9.9.9.9"
      (runGuard [] [GuardEvent.request "9.9.9.9",
        GuardEvent.request "9.9.9.9"]).2 = 1 :=
  C9_admission_guard true true true "aaaaaaaaaa" 3 "9.9.9.9"
    ⟨[], ["9.9.9.9"], [], []⟩ ⟨[], [], [], []⟩ none none []
    [GuardEvent.request "9.9.9.9", GuardEvent.request "9.9.9.9"]
    (by decide) (by decide) (by decide) (by decide) (by decide)

theorem sweepStep_calls (delOk : String → Bool) (now : Nat)
    (acc : SweepResult) (p : String × Nat) (call : DriverCall) :
    call ∈ (sweepStep delOk now acc p).calls →
      call ∈ acc.calls ∨ call = DriverCall.deleteCall "kind" p.1 := by
  by_cases h1 : now - p.2 > SANDBOX_LIFETIME_MS
  · cases h2 : delOk p.1 <;>
      · intro h
        simp only [sweepStep, deleteCluster, h1, h2, if_pos, if_neg,
          Bool.false_eq_true, if_false, if_true, List.mem_append,
          List.mem_singleton] at h
        tauto
  · intro h
    simp only [sweepStep, if_neg h1] at h
    exact Or.inl h

theorem sweep_calls_from_entries (delOk : String → Bool) (now : Nat) :
    ∀ (l : Registry) (acc : SweepResult) (call : DriverCall),
      call ∈ (l.foldl (sweepStep delOk now) acc).calls →
      call ∈ acc.calls ∨ ∃ p ∈ l, call = DriverCall.deleteCall "kind" p.1
  | [], _, _, h => Or.inl h
  | p :: l, acc, call, h => by
    rw [List.foldl_cons] at h
    rcases sweep_calls_from_entries delOk now l _ call h with h1 | ⟨q, hq, hc⟩
    · rcases sweepStep_calls delOk now acc p call h1 with h2 | h2
      · exact Or.inl h2
      · exact Or.inr ⟨p, List.mem_cons_self _ _, h2⟩
    · exact Or.inr ⟨q, List.mem_cons_of_mem _ hq, hc⟩

/-- Claim C10: a reused create call decides solely by the driver's list
query and leaves the Registry (indeed the whole state) unmodified — no
entry is added and no timestamp refreshed — so a sandbox that is live per
the driver is reused even when it has no Registry entry; and the Sweeper
never issues a delete call for an id that has no Registry entry. -/
theorem C10_reuse_frame_and_sweeper_blindspot (writeOk createOk unlinkOk : Bool)
    (freshId : String) (now now2 : Nat) (st : ServerState) (id : String)
    (delOk : String → Bool) (hlive : id ∈ st.k3dClusters)
    (hunreg : id ∉ st.sandboxes.map Prod.fst) :
    ((postSandbox writeOk createOk unlinkOk freshId now st
        (some id)).response.reused = true) ∧
    ((postSandbox writeOk createOk unlinkOk freshId now st
        (some id)).response.sandboxId? = some id) ∧
    ((postSandbox writeOk createOk unlinkOk freshId now st
        (some id)).state = st) ∧
    ((postSandbox writeOk createOk unlinkOk freshId now st
        (some id)).calls = [DriverCall.listCall "k3d" (some id)]) ∧
    ((cleanupExpiredSandboxes delOk now2 st).calls.countP
      (isDeleteCallFor id) = 0) := by
  refine ⟨?_, ?_, ?_, ?_, ?_⟩
  · simp [postSandbox, hlive]
  · simp [postSandbox, hlive]
  · simp [postSandbox, hlive]
  · simp [postSandbox, hlive]
  · rw [List.countP_eq_zero]
    intro call hcall
    rcases sweep_calls_from_entries delOk now2 st.sandboxes ⟨st, []⟩ call
        hcall with h | ⟨p, hp, hc⟩
    · simp at h
    · subst hc
      simp only [isDeleteCallFor]
      intro hbe
      exact hunreg (List.mem_map.mpr ⟨p, hp, beq_iff_eq.mp hbe⟩)

theorem C10_reuse_frame_witness :
    ((postSandbox true true true "aaaaaaaaaa" 3
        ⟨[("other", 0)], [], [], ["sb-live"]⟩
        (some "sb-live")).response.reused = true) ∧
    ((postSandbox true true true "aaaaaaaaaa" 3
        ⟨[("other", 0)], [], [], ["sb-live"]⟩
        (some "sb-live")).response.sandboxId? = some "sb-live") ∧
    ((postSandbox true true true "aaaaaaaaaa" 3
        ⟨[("other", 0)], [], [], ["sb-live"]⟩
        (some "sb-live")).state = ⟨[("other", 0)], [], [], ["sb-live"]⟩) ∧
    ((postSandbox true true true "aaaaaaaaaa" 3
        ⟨[("other", 0)], [], [], ["sb-live"]⟩
        (some "sb-live")).calls
      = [DriverCall.listCall "k3d" (some "sb-live")]) ∧
    ((cleanupExpiredSandboxes (fun _ => true) 99999999999
        ⟨[("other", 0)], [], [], ["sb-live"]⟩).calls.countP
      (isDeleteCallFor "sb-live") = 0) :=
  C10_reuse_frame_and_sweeper_blindspot true true true "aaaaaaaaaa" 3
    99999999999 ⟨[("other", 0)], [], [], ["sb-live"]⟩ "sb-live"
    (fun _ => true) (by decide) (by decide)

end K8s
